import Mathlib

/-!
Verification of the smart-energy prediction service
(api/predict.py): the feature transformer, the model loader, the Flask
routes (health, predict) and the Vercel serverless handler, shallowly
embedded over the reals.
-/

noncomputable section

/-- Interface of the trigonometric functions the transformer takes from
the math module; instantiated with the real sin, cos and pi
(idealizing IEEE doubles as real numbers). -/
structure MathM where
  pi : ℝ
  sin : ℝ → ℝ
  cos : ℝ → ℝ

/-- Instantiation of the math interface with the real functions. -/
def mathImpl : MathM :=
  { pi := Real.pi, sin := Real.sin, cos := Real.cos }

/-- RawFeatures: the request dictionary of named scalar inputs; every
field is optional (absent keys take defaults inside the transformer).
The weekday and hour flags mirror the source defaults, which are Python
ints; the weather fields default to floats. -/
structure RawFeatures where
  temperature : Option ℝ := none
  humidity : Option ℝ := none
  renewable : Option ℝ := none
  hour : Option ℤ := none
  day_of_week : Option ℤ := none
  month : Option ℤ := none
  is_weekend : Option ℤ := none
  is_business_hour : Option ℤ := none
  timestamp : Option String := none

/-- Embedding of transform_features_for_prediction: raw features to the
16-element feature vector, translated line by line from the source.
Python truthiness of a number (x if flag else y) is flag not equal 0. -/
def transform_features_for_prediction (M : MathM) (features : RawFeatures) :
    List ℝ :=
  let temperature := features.temperature.getD 22.0
  let humidity := features.humidity.getD 60.0
  let renewable := features.renewable.getD 0.0
  let hour := features.hour.getD 12
  let day_of_week := features.day_of_week.getD 1
  let month := features.month.getD 6
  let is_weekend := features.is_weekend.getD 0
  let is_business_hour := features.is_business_hour.getD 1
  let base_consumption : ℝ := 50.0
  let hour_multiplier : ℝ := 1.0 + 0.3 * M.sin (2 * M.pi * ((hour : ℝ) - 6) / 12)
  let weekend_multiplier : ℝ := if is_weekend ≠ 0 then 1.2 else 1.0
  let business_multiplier : ℝ := if is_business_hour ≠ 0 then 1.1 else 0.8
  let consumption_lag_1h := base_consumption * hour_multiplier * weekend_multiplier * business_multiplier
  let consumption_lag_24h := consumption_lag_1h * 0.95
  let consumption_lag_168h := consumption_lag_1h * 0.9
  let temperature_rolling_24h := temperature
  let humidity_rolling_24h := humidity
  let hour_sin := M.sin (2 * M.pi * (hour : ℝ) / 24)
  let hour_cos := M.cos (2 * M.pi * (hour : ℝ) / 24)
  let day_sin := M.sin (2 * M.pi * (day_of_week : ℝ) / 7)
  let day_cos := M.cos (2 * M.pi * (day_of_week : ℝ) / 7)
  let month_sin := M.sin (2 * M.pi * (month : ℝ) / 12)
  let month_cos := M.cos (2 * M.pi * (month : ℝ) / 12)
  let avg_consumption_same_hour := base_consumption * hour_multiplier
  let avg_consumption_same_day := base_consumption * weekend_multiplier
  [consumption_lag_1h, consumption_lag_24h, consumption_lag_168h,
   temperature_rolling_24h, humidity_rolling_24h,
   hour_sin, hour_cos, day_sin, day_cos, month_sin, month_cos,
   avg_consumption_same_hour, avg_consumption_same_day,
   (is_weekend : ℝ), (is_business_hour : ℝ), renewable]

/-- Spec 4.1 step 1: hour multiplier from the spec formula. -/
def spec_hour_multiplier (M : MathM) (f : RawFeatures) : ℝ :=
  1 + 0.3 * M.sin (2 * M.pi * (((f.hour.getD 12 : ℤ) : ℝ) - 6) / 12)

/-- Spec 4.1 step 2: weekend multiplier. -/
def spec_weekend_multiplier (f : RawFeatures) : ℝ :=
  if f.is_weekend.getD 0 ≠ 0 then 1.2 else 1.0

/-- Spec 4.1 step 2: business-hour multiplier. -/
def spec_business_multiplier (f : RawFeatures) : ℝ :=
  if f.is_business_hour.getD 1 ≠ 0 then 1.1 else 0.8

/-- Spec 4.1 step 3: lag_1h. -/
def spec_lag_1h (M : MathM) (f : RawFeatures) : ℝ :=
  50.0 * spec_hour_multiplier M f * spec_weekend_multiplier f * spec_business_multiplier f

/-- Spec 4.1 step 3: lag_24h = 0.95 times lag_1h. -/
def spec_lag_24h (M : MathM) (f : RawFeatures) : ℝ := 0.95 * spec_lag_1h M f

/-- Spec 4.1 step 3: lag_168h = 0.9 times lag_1h. -/
def spec_lag_168h (M : MathM) (f : RawFeatures) : ℝ := 0.9 * spec_lag_1h M f

/-- Spec 4.1 step 4: rolling temperature proxy, passed through. -/
def spec_temp_roll (f : RawFeatures) : ℝ := f.temperature.getD 22.0

/-- Spec 4.1 step 4: rolling humidity proxy, passed through. -/
def spec_humidity_roll (f : RawFeatures) : ℝ := f.humidity.getD 60.0

/-- Spec 4.1 step 5: sine of hour with period 24. -/
def spec_hour_sin (M : MathM) (f : RawFeatures) : ℝ :=
  M.sin (2 * M.pi * ((f.hour.getD 12 : ℤ) : ℝ) / 24)

/-- Spec 4.1 step 5: cosine of hour with period 24. -/
def spec_hour_cos (M : MathM) (f : RawFeatures) : ℝ :=
  M.cos (2 * M.pi * ((f.hour.getD 12 : ℤ) : ℝ) / 24)

/-- Spec 4.1 step 5: sine of day_of_week with period 7. -/
def spec_day_sin (M : MathM) (f : RawFeatures) : ℝ :=
  M.sin (2 * M.pi * ((f.day_of_week.getD 1 : ℤ) : ℝ) / 7)

/-- Spec 4.1 step 5: cosine of day_of_week with period 7. -/
def spec_day_cos (M : MathM) (f : RawFeatures) : ℝ :=
  M.cos (2 * M.pi * ((f.day_of_week.getD 1 : ℤ) : ℝ) / 7)

/-- Spec 4.1 step 5: sine of month with period 12. -/
def spec_month_sin (M : MathM) (f : RawFeatures) : ℝ :=
  M.sin (2 * M.pi * ((f.month.getD 6 : ℤ) : ℝ) / 12)

/-- Spec 4.1 step 5: cosine of month with period 12. -/
def spec_month_cos (M : MathM) (f : RawFeatures) : ℝ :=
  M.cos (2 * M.pi * ((f.month.getD 6 : ℤ) : ℝ) / 12)

/-- Spec 4.1 step 6: average consumption at the same hour. -/
def spec_avg_same_hour (M : MathM) (f : RawFeatures) : ℝ :=
  50.0 * spec_hour_multiplier M f

/-- Spec 4.1 step 6: average consumption on the same kind of day. -/
def spec_avg_same_day (f : RawFeatures) : ℝ := 50.0 * spec_weekend_multiplier f

/-- Weekend flag as it appears in the output vector. -/
def spec_is_weekend_out (f : RawFeatures) : ℝ := ((f.is_weekend.getD 0 : ℤ) : ℝ)

/-- Business-hour flag as it appears in the output vector. -/
def spec_is_business_hour_out (f : RawFeatures) : ℝ :=
  ((f.is_business_hour.getD 1 : ℤ) : ℝ)

/-- Renewable generation as it appears in the output vector. -/
def spec_renewable_out (f : RawFeatures) : ℝ := f.renewable.getD 0.0

/-- The model: an opaque inference function from a feature vector to a
predicted value; model.predict on a single-row input followed by taking
element 0 is one application of this function. -/
abbrev Model := List ℝ → ℝ

/-- One Prediction of the response batch. -/
structure Prediction where
  index : ℕ
  predicted : ℝ
  timestamp : Option String

/-- The parsed request body, as the handlers see it: parsing raised (the
carried message is the exception text), the body was null or empty or
not an object with keys, an object lacking the features key, or an
object carrying a features list. -/
inductive JsonBody where
  | malformed (msg : String)
  | emptyOrNull
  | withoutFeatures
  | withFeatures (fs : List RawFeatures)

/-- Logical response bodies of both entry points. -/
inductive RespBody where
  | errorB (msg : String)
  | success (preds : List Prediction)
  | healthB (status : String) (model_loaded : Bool) (timestamp : String)
  | emptyB
  | notFound

/-- The prediction loop shared by both entry points: enumerate the
features list, transform each item, run inference, echo the timestamp. -/
def predictBatch (M : MathM) (m : Model) (fs : List RawFeatures) :
    List Prediction :=
  fs.enum.map (fun p =>
    { index := p.1,
      predicted := m (transform_features_for_prediction M p.2),
      timestamp := p.2.timestamp })

/-- Embedding of the Flask health route: always 200 with status
healthy, model_loaded true exactly when the model reference is set, and
the current timestamp. -/
def flask_health (model : Option Model) (now : String) : ℕ × RespBody :=
  (200, .healthB "healthy" model.isSome now)

/-- Embedding of the Flask predict route: refuse with 503 when the
model is unset, then parse the body (parse failure surfaces as 500 via
the except branch), 400 when the body is falsy or lacks features, else
run the batch. -/
def flask_predict (M : MathM) (model : Option Model) (body : JsonBody) :
    ℕ × RespBody :=
  match model with
  | none => (503, .errorB "Model not loaded")
  | some m =>
    match body with
    | .malformed msg => (500, .errorB msg)
    | .emptyOrNull => (400, .errorB "Invalid request")
    | .withoutFeatures => (400, .errorB "Invalid request")
    | .withFeatures fs => (200, .success (predictBatch M m fs))

/-- A serverless event: httpMethod, path, and the body when the event
carries one. -/
structure Event where
  httpMethod : Option String := none
  path : String := ""
  body : Option JsonBody := none

/-- The text of the Python AttributeError raised by model.predict when
the model reference is None. -/
def noneTypeMsg : String := "'NoneType' object has no attribute 'predict'"

/-- Embedding of the Vercel serverless handler. It mirrors the Flask
logic except that it never checks whether the model is set: on a POST
with features it calls model.predict directly, so an unset model raises
an AttributeError on the first item (caught as 500), and an empty
features list returns 200 with an empty predictions array. -/
def handler (M : MathM) (model : Option Model) (now : String) (ev : Event) :
    ℕ × RespBody :=
  if ev.httpMethod = some "OPTIONS" then
    (200, .emptyB)
  else if ev.httpMethod = some "GET" ∧ ev.path.endsWith "/health" then
    (200, .healthB "healthy" model.isSome now)
  else
    match ev.httpMethod, ev.body with
    | some "POST", some b =>
      (match b with
       | .malformed msg => (500, .errorB msg)
       | .emptyOrNull => (400, .errorB "Invalid request")
       | .withoutFeatures => (400, .errorB "Invalid request")
       | .withFeatures fs =>
         match model with
         | some m => (200, .success (predictBatch M m fs))
         | none =>
           match fs with
           | [] => (200, .success [])
           | _ :: _ => (500, .errorB noneTypeMsg))
    | _, _ => (404, .notFound)

/-- The deserialized pickle content: either a container mapping holding
the model under the key model, or the raw model object itself. -/
inductive PickleData (Mo : Type) where
  | dictWithModel (m : Mo)
  | raw (m : Mo)

/-- What load_model leaves behind: its boolean return value, the
process-wide model reference, and the line it printed. -/
structure LoadOutcome where
  ok : Bool
  model : Option Model
  log : String

/-- The fixed model artifact path. -/
def MODEL_PATH : String := "random_forest_model.pkl"

/-- Embedding of load_model: the file read and unpickle step is passed
in as an Except value (error carries the exception text). On success
the model reference is set, unwrapping a container dict; on failure the
function returns false, prints the error, and leaves the model
reference as it was. -/
def load_model (prev : Option Model)
    (pickled : Except String (PickleData Model)) : LoadOutcome :=
  match pickled with
  | .ok (.dictWithModel m) =>
    { ok := true, model := some m,
      log := "Model loaded successfully from " ++ MODEL_PATH }
  | .ok (.raw m) =>
    { ok := true, model := some m,
      log := "Model loaded successfully from " ++ MODEL_PATH }
  | .error e =>
    { ok := false, model := prev, log := "Error loading model: " ++ e }

/-- C3: the transformer returns exactly 16 values, in the documented
order lag_1h, lag_24h, lag_168h, temp_roll, humidity_roll, hour_sin,
hour_cos, day_sin, day_cos, month_sin, month_cos, avg_same_hour,
avg_same_day, is_weekend, is_business_hour, renewable; and it is
deterministic: equal inputs give identical outputs. -/
theorem transform_output_order_and_deterministic (M : MathM)
    (f g : RawFeatures) (h : f = g) :
    transform_features_for_prediction M f =
      [spec_lag_1h M f, spec_lag_24h M f, spec_lag_168h M f,
       spec_temp_roll f, spec_humidity_roll f,
       spec_hour_sin M f, spec_hour_cos M f, spec_day_sin M f,
       spec_day_cos M f, spec_month_sin M f, spec_month_cos M f,
       spec_avg_same_hour M f, spec_avg_same_day f,
       spec_is_weekend_out f, spec_is_business_hour_out f,
       spec_renewable_out f] ∧
    (transform_features_for_prediction M f).length = 16 ∧
    transform_features_for_prediction M f =
      transform_features_for_prediction M g := by
  subst h
  refine ⟨?_, rfl, rfl⟩
  simp only [transform_features_for_prediction, spec_lag_1h, spec_lag_24h,
    spec_lag_168h, spec_temp_roll, spec_humidity_roll, spec_hour_sin,
    spec_hour_cos, spec_day_sin, spec_day_cos, spec_month_sin,
    spec_month_cos, spec_avg_same_hour, spec_avg_same_day,
    spec_is_weekend_out, spec_is_business_hour_out, spec_renewable_out,
    spec_hour_multiplier, spec_weekend_multiplier, spec_business_multiplier,
    List.cons.injEq]
  and_intros <;> first | rfl | ring_nf

/-- Witness for C3 at the empty mapping. -/
theorem transform_output_order_and_deterministic_witness :
    transform_features_for_prediction mathImpl {} =
      [spec_lag_1h mathImpl {}, spec_lag_24h mathImpl {},
       spec_lag_168h mathImpl {}, spec_temp_roll {}, spec_humidity_roll {},
       spec_hour_sin mathImpl {}, spec_hour_cos mathImpl {},
       spec_day_sin mathImpl {}, spec_day_cos mathImpl {},
       spec_month_sin mathImpl {}, spec_month_cos mathImpl {},
       spec_avg_same_hour mathImpl {}, spec_avg_same_day {},
       spec_is_weekend_out {}, spec_is_business_hour_out {},
       spec_renewable_out {}] ∧
    (transform_features_for_prediction mathImpl {}).length = 16 ∧
    transform_features_for_prediction mathImpl {} =
      transform_features_for_prediction mathImpl {} :=
  transform_output_order_and_deterministic mathImpl {} {} rfl

/-- C4: transforming the empty mapping uses the defaults; the hour
multiplier is 1 + 0.3 sin(2 pi 6 / 12) = 1 and the first output element
(lag_1h) is exactly 50 * 1 * 1 * 1.1 = 55. -/
theorem transform_empty_defaults_lag1h :
    spec_hour_multiplier mathImpl {} = 1 + 0.3 * Real.sin (2 * Real.pi * 6 / 12) ∧
    spec_hour_multiplier mathImpl {} = 1 ∧
    (transform_features_for_prediction mathImpl
        ({} : RawFeatures))[0]?.getD 0 = 55 := by
  have hpi : 2 * Real.pi * 6 / 12 = Real.pi := by ring
  have hmul : spec_hour_multiplier mathImpl {} = 1 := by
    simp only [spec_hour_multiplier, mathImpl]
    norm_num [hpi, Real.sin_pi]
  refine ⟨?_, hmul, ?_⟩
  · simp only [spec_hour_multiplier, mathImpl]
    norm_num
  · simp only [transform_features_for_prediction, mathImpl]
    norm_num [hpi, Real.sin_pi]

/-- C5: the three cyclical encoding pairs produced by the transformer
all lie on the unit circle: sin squared plus cos squared is 1, for
every input. -/
theorem cyclical_encodings_unit_norm (f : RawFeatures) :
    (transform_features_for_prediction mathImpl f)[5]?.getD 0 ^ 2 +
      (transform_features_for_prediction mathImpl f)[6]?.getD 0 ^ 2 = 1 ∧
    (transform_features_for_prediction mathImpl f)[7]?.getD 0 ^ 2 +
      (transform_features_for_prediction mathImpl f)[8]?.getD 0 ^ 2 = 1 ∧
    (transform_features_for_prediction mathImpl f)[9]?.getD 0 ^ 2 +
      (transform_features_for_prediction mathImpl f)[10]?.getD 0 ^ 2 = 1 := by
  simp only [transform_features_for_prediction, mathImpl, List.getElem?_cons_succ,
    List.getElem?_cons_zero, Option.getD_some]
  exact ⟨Real.sin_sq_add_cos_sq _, Real.sin_sq_add_cos_sq _,
    Real.sin_sq_add_cos_sq _⟩

/-- C6: the transformer is total: every input, including one with any
or all fields missing, produces a 16-element vector; there is no error
branch. -/
theorem transform_total_sixteen (M : MathM) (f : RawFeatures) :
    ∃ v : List ℝ, transform_features_for_prediction M f = v ∧ v.length = 16 :=
  ⟨transform_features_for_prediction M f, rfl, rfl⟩

/-- C7: when loading fails, load_model returns false, logs the error,
and leaves the model reference unset, so the health endpoint reports
model_loaded as false (with status 200). -/
theorem load_model_failure_keeps_model_unset (e now : String) :
    (load_model none (.error e)).ok = false ∧
    (load_model none (.error e)).model = none ∧
    (load_model none (.error e)).log = "Error loading model: " ++ e ∧
    flask_health (load_model none (.error e)).model now =
      (200, .healthB "healthy" false now) :=
  ⟨rfl, rfl, rfl, rfl⟩

/-- C9: the health route always returns 200, whatever the loader state,
with status healthy, a model_loaded boolean that is true exactly when
the model reference is set, and the timestamp. -/
theorem health_always_200_model_loaded (model : Option Model) (now : String) :
    (flask_health model now).1 = 200 ∧
    (flask_health model now).2 = .healthB "healthy" model.isSome now ∧
    (model.isSome = true ↔ model ≠ none) := by
  refine ⟨rfl, rfl, ?_⟩
  cases model <;> simp

/-- C8: a successful predict request over a batch of n features returns
200 with exactly n predictions in input order; the prediction at index
i carries index i, the model inference on the transformed i-th input,
and that input's timestamp (null when absent). -/
theorem predict_success_contract (M : MathM) (m : Model)
    (fs : List RawFeatures) (i : ℕ) (f : RawFeatures)
    (h : fs[i]? = some f) :
    flask_predict M (some m) (.withFeatures fs) =
      (200, .success (predictBatch M m fs)) ∧
    (predictBatch M m fs).length = fs.length ∧
    (predictBatch M m fs)[i]? =
      some { index := i,
             predicted := m (transform_features_for_prediction M f),
             timestamp := f.timestamp } := by
  refine ⟨rfl, ?_, ?_⟩
  · simp [predictBatch]
  · simp [predictBatch, List.getElem?_map, List.getElem?_enum, h]

/-- Witness for C8: a singleton batch of the empty mapping with a
constant model. -/
theorem predict_success_contract_witness :
    ([({} : RawFeatures)])[0]? = some ({} : RawFeatures) ∧
    (flask_predict mathImpl (some (fun _ => 0)) (.withFeatures [{}]) =
      (200, .success (predictBatch mathImpl (fun _ => 0) [{}])) ∧
     (predictBatch mathImpl (fun _ => 0) [{}]).length =
       ([({} : RawFeatures)]).length ∧
     (predictBatch mathImpl (fun _ => 0) [{}])[0]? =
       some { index := 0,
              predicted :=
                (fun _ => (0 : ℝ))
                  (transform_features_for_prediction mathImpl {}),
              timestamp := ({} : RawFeatures).timestamp }) :=
  ⟨rfl, predict_success_contract mathImpl (fun _ => 0) [{}] 0 {} rfl⟩

/-- The predicted values of a batch are the model applied to the
transform of each input, in order. -/
theorem predictBatch_map_predicted (M : MathM) (m : Model)
    (l : List RawFeatures) :
    (predictBatch M m l).map (fun p => p.predicted) =
      l.map (fun f => m (transform_features_for_prediction M f)) := by
  calc (predictBatch M m l).map (fun p => p.predicted)
      = l.enum.map (fun p =>
          m (transform_features_for_prediction M p.2)) := by
        simp [predictBatch, List.map_map]
    _ = (l.enum.map Prod.snd).map (fun f =>
          m (transform_features_for_prediction M f)) := by
        rw [List.map_map]
        rfl
    _ = l.map (fun f => m (transform_features_for_prediction M f)) := by
        rw [List.enum_map_snd]

/-- C10: predicted values do not depend on timestamps: two requests
whose feature items differ only in the timestamp field produce
identical predicted values, because the timestamp never enters the
feature vector. -/
theorem predicted_independent_of_timestamp (M : MathM) (m : Model)
    (f : RawFeatures) (t1 t2 : Option String)
    (before after : List RawFeatures) :
    transform_features_for_prediction M { f with timestamp := t1 } =
      transform_features_for_prediction M { f with timestamp := t2 } ∧
    (predictBatch M m (before ++ { f with timestamp := t1 } :: after)).map
        (fun p => p.predicted) =
      (predictBatch M m (before ++ { f with timestamp := t2 } :: after)).map
        (fun p => p.predicted) := by
  refine ⟨rfl, ?_⟩
  rw [predictBatch_map_predicted, predictBatch_map_predicted,
    List.map_append, List.map_append]
  rfl

/-- C2 evaluation: the Flask route with the model unset answers 503
Model not loaded for every body, but the serverless handler on a POST
predict with one feature item and the model unset answers 500 with the
AttributeError text, not 503. -/
theorem predict_model_unset_flask_503_handler_500 :
    (∀ (M : MathM) (body : JsonBody),
      flask_predict M none body = (503, .errorB "Model not loaded")) ∧
    handler mathImpl none "now"
        { httpMethod := some "POST", path := "/api/predict",
          body := some (.withFeatures [{}]) } =
      (500, .errorB "'NoneType' object has no attribute 'predict'") ∧
    handler mathImpl none "now"
        { httpMethod := some "POST", path := "/api/predict",
          body := some (.withFeatures []) } =
      (200, .success []) := by
  refine ⟨fun M body => rfl, ?_, ?_⟩ <;> rfl

/-- C1 evaluation: at the same logical request (POST predict, one
feature item, model unset) the two entry points disagree: Flask answers
503 Model not loaded, the serverless handler answers 500 with the
AttributeError text. -/
theorem handler_flask_divergence_model_unset :
    flask_predict mathImpl none (.withFeatures [{}]) =
      (503, .errorB "Model not loaded") ∧
    handler mathImpl none "now"
        { httpMethod := some "POST", path := "/api/predict",
          body := some (.withFeatures [{}]) } =
      (500, .errorB "'NoneType' object has no attribute 'predict'") ∧
    (flask_predict mathImpl none (.withFeatures [{}])).1 ≠
      (handler mathImpl none "now"
        { httpMethod := some "POST", path := "/api/predict",
          body := some (.withFeatures [{}]) }).1 := by
  refine ⟨rfl, rfl, ?_⟩
  decide

end
